import Mathlib

/-!
# MemeGenerator component: state machine and export/preview paths

Shallow embedding of `client/src/components/MemeGenerator.jsx`.

The React state cells (`selectedImage`, `imageElement`, `topText`, `bottomText`,
`isGenerating`) and the two refs become fields of `State`. Each handler of the
component is a function on `State`. Calls that leave the component
(`drawMemeOnCanvas`, `toDataURL`, `Date.now`) are fields of `Env`; what the
component does that is observable from outside (compositor invocations,
`console.error` lines, triggered downloads, objects it constructs) is recorded in
trace fields of `State`.

Exceptions are explicit: a block of statements is a function
`State → State × Thrown`, where the second component is the thrown value, if any.
-/

namespace MemeGenerator

/-! ## Data -/

/-- The object held by the `topText` and `bottomText` state cells (lines 10-25). -/
structure TextLayer where
  content : String
  fontSize : Int
  color : String
  stroke : String
  strokeWidth : Int
  y : Int
deriving DecidableEq, Repr

/-- An `HTMLImageElement` made by `new Image()` (line 34). `ident` stands for the
identity of the object; `width` and `height` are 0 until the browser has decoded the
source, and the natural size afterwards. -/
structure ImageElement where
  ident : Nat
  src : String
  crossOrigin : String
  width : Nat
  height : Nat
deriving DecidableEq, Repr

/-- The state of a canvas element together with its 2d context: pixel size, the
current transform of the context (only scalings occur, so two factors suffice) and
the pixel buffer. -/
structure Canvas where
  width : Nat
  height : Nat
  scaleX : Nat
  scaleY : Nat
  pixels : List Nat
deriving DecidableEq, Repr

/-- Which canvas object a drawing call received: the element behind
`previewCanvasRef` (line 193), the element behind `canvasRef` (line 198), or the
`n`-th element made by `document.createElement('canvas')` (line 78). -/
inductive CanvasId where
  | previewCanvas
  | hiddenCanvas
  | created (n : Nat)
deriving DecidableEq, Repr

/-- One invocation of `drawMemeOnCanvas`, with the arguments it received. -/
structure DrawCall where
  target : CanvasId
  surface : Canvas
  image : ImageElement
  topText : TextLayer
  bottomText : TextLayer
deriving DecidableEq, Repr

/-- A download started by `link.click()` (lines 91-94). -/
structure Download where
  filename : String
  href : String
deriving DecidableEq, Repr

/-- A thrown value, if any. -/
abbrev Thrown := Option String

/-- What a call of `drawMemeOnCanvas` leaves behind: the canvas as it is when the
call ends, and the error it threw, if it threw. -/
structure DrawOutcome where
  surface : Canvas
  thrown : Thrown

/-- The collaborators of the component that live outside this file:
`drawMemeOnCanvas` (imported from `../utils/canvas`, line 5), the canvas encoder
`toDataURL('image/png', 1.0)` and the clock `Date.now()`. The compositor receives
the image and the two layers as values and returns the new canvas state. -/
structure Env where
  drawMemeOnCanvas : Canvas → ImageElement → TextLayer → TextLayer → DrawOutcome
  toDataURL : Canvas → Except String String
  now : Nat

/-- The component state (lines 8-29) and the trace of its outward effects. -/
structure State where
  selectedImage : Option String
  imageElement : Option ImageElement
  topText : TextLayer
  bottomText : TextLayer
  isGenerating : Bool
  canvasRef : Option Canvas
  previewCanvasRef : Option Canvas
  /-- Images whose `src` has been set and whose decode has not completed. -/
  pending : List ImageElement
  /-- Number of `new Image()` calls so far. -/
  imagesMade : Nat
  /-- Number of `document.createElement('canvas')` calls so far. -/
  canvasesMade : Nat
  /-- Every `drawMemeOnCanvas` call so far, oldest first. -/
  draws : List DrawCall
  /-- Every `console.error` line so far, oldest first. -/
  console : List String
  /-- Every download triggered so far, oldest first. -/
  downloads : List Download
deriving DecidableEq, Repr

/-- What the preview panel renders (lines 191-206). -/
inductive PreviewPane where
  | drawingSurface
  | placeholder
deriving DecidableEq, Repr

/-- The result with which an image decode completes; a successful decode reports
the natural size. -/
inductive DecodeResult where
  | loaded (w h : Nat)
  | failed
deriving DecidableEq, Repr

/-! ## Initial values -/

/-- Initial `topText`, lines 10-17. -/
def initialTopText : TextLayer :=
  { content := "", fontSize := 48, color := "#FFFFFF", stroke := "#000000",
    strokeWidth := 3, y := 15 }

/-- Initial `bottomText`, lines 18-25. -/
def initialBottomText : TextLayer :=
  { content := "", fontSize := 48, color := "#FFFFFF", stroke := "#000000",
    strokeWidth := 3, y := 85 }

/-- A canvas element on which neither `width` nor `height` has been set: the
element has the HTML default size 300 by 150, an identity transform and an empty
buffer. Both JSX canvases (lines 193-198) and the one made at line 78 start so. -/
def freshCanvas : Canvas :=
  { width := 300, height := 150, scaleX := 1, scaleY := 1, pixels := [] }

/-- The state on first mount: lines 8-29, nothing selected, refs empty. -/
def initialState : State :=
  { selectedImage := none, imageElement := none,
    topText := initialTopText, bottomText := initialBottomText,
    isGenerating := false, canvasRef := none, previewCanvasRef := none,
    pending := [], imagesMade := 0, canvasesMade := 0,
    draws := [], console := [], downloads := [] }

/-- The constraints the data model puts on a layer: positive font size,
non-negative stroke width, vertical position within 0..100. -/
def TextLayer.valid (t : TextLayer) : Prop :=
  0 < t.fontSize ∧ 0 ≤ t.strokeWidth ∧ 0 ≤ t.y ∧ t.y ≤ 100

/-! ## JavaScript primitives -/

/-- JavaScript truthiness of a value that is a string, `null` or `undefined`:
only a non-empty string is truthy. -/
def truthy : Option String → Bool
  | some v => v != ""
  | none => false

/-- The call `console.error(msg)`. -/
def consoleError (msg : String) (s : State) : State :=
  { s with console := s.console ++ [msg] }

/-- The largest value the `width` and `height` attributes of a canvas accept. -/
def maxCanvasDimension : Nat := 2147483647

/-- Conversion of a non-negative integral JavaScript number to the type
`unsigned long` of the attributes `canvas.width` and `canvas.height`: the value is
reduced modulo 2^32. -/
def toUnsignedLong (v : Nat) : Nat := v % 4294967296

/-- The value a canvas dimension holds after `v` has been assigned to it: the
converted value when it lies in 0..2147483647, and the default `dflt` of the
attribute otherwise. -/
def canvasDimension (dflt v : Nat) : Nat :=
  if toUnsignedLong v ≤ maxCanvasDimension then toUnsignedLong v else dflt

/-- Assigning `canvas.width`: the width becomes the accepted value (default 300
when out of range) and the context is reset (identity transform, cleared buffer). -/
def Canvas.setWidth (c : Canvas) (w : Nat) : Canvas :=
  { c with width := canvasDimension 300 w, scaleX := 1, scaleY := 1, pixels := [] }

/-- Assigning `canvas.height`: the height becomes the accepted value (default 150
when out of range) and the context is reset. -/
def Canvas.setHeight (c : Canvas) (h : Nat) : Canvas :=
  { c with height := canvasDimension 150 h, scaleX := 1, scaleY := 1, pixels := [] }

/-- The call `ctx.scale(x, y)`: multiplies the current transform. -/
def Canvas.scale (c : Canvas) (x y : Nat) : Canvas :=
  { c with scaleX := c.scaleX * x, scaleY := c.scaleY * y }

/-- The statement `try body catch (e) handler`. -/
def tryCatch (body : State → State × Thrown) (handler : String → State → State × Thrown)
    (s : State) : State × Thrown :=
  match body s with
  | (s1, none) => (s1, none)
  | (s1, some e) => handler e s1

/-- The statement `try body catch (e) handler finally fin`: the finally block
always runs; an exception it throws replaces the pending one. -/
def tryCatchFinally (body : State → State × Thrown)
    (handler : String → State → State × Thrown) (fin : State → State × Thrown)
    (s : State) : State × Thrown :=
  match tryCatch body handler s with
  | (s1, pendingThrow) =>
    match fin s1 with
    | (s2, none) => (s2, pendingThrow)
    | (s2, some e) => (s2, some e)

/-! ## Rendering and effects -/

/-- The preview panel, lines 191-206: the two canvases when `selectedImage` is
truthy, the "No image selected" block otherwise. -/
def previewPane (s : State) : PreviewPane :=
  if truthy s.selectedImage then PreviewPane.drawingSurface else PreviewPane.placeholder

/-- Committing a render to the DOM: the canvases of lines 193-198 are mounted (and
the refs filled) while `selectedImage` is truthy, and unmounted (refs cleared)
otherwise. An element that is already mounted is kept. -/
def render (s : State) : State :=
  if truthy s.selectedImage then
    { s with
      previewCanvasRef := some (s.previewCanvasRef.getD freshCanvas),
      canvasRef := some (s.canvasRef.getD freshCanvas) }
  else
    { s with previewCanvasRef := none, canvasRef := none }

/-- The call `new Image()` followed by lines 35-43 for source `url`; `n` is the
identity of the new object. -/
def newImage (n : Nat) (url : String) : ImageElement :=
  { ident := n, src := url, crossOrigin := "anonymous", width := 0, height := 0 }

/-- Body of the first effect, lines 32-45. -/
def loadImageEffect (s : State) : State :=
  match s.selectedImage with
  | some url =>
    if truthy (some url) then
      { s with
        pending := s.pending ++ [newImage s.imagesMade url],
        imagesMade := s.imagesMade + 1 }
    else s
  | none => s

/-- The guarded call of line 51, as a block that may throw. -/
def drawPreview (env : Env) (cv : Canvas) (img : ImageElement) (s : State) :
    State × Thrown :=
  let out := env.drawMemeOnCanvas cv img s.topText s.bottomText
  ({ s with
      previewCanvasRef := some out.surface,
      draws := s.draws ++
        [{ target := CanvasId.previewCanvas, surface := cv, image := img,
           topText := s.topText, bottomText := s.bottomText }] },
   out.thrown)

/-- Body of the second effect, lines 48-56. -/
def previewEffect (env : Env) (s : State) : State × Thrown :=
  match s.imageElement, s.previewCanvasRef with
  | some img, some cv =>
    tryCatch (drawPreview env cv img)
      (fun e st => (consoleError ("Error drawing preview: " ++ e) st, none)) s
  | _, _ => (s, none)

/-- Which dependency arrays changed in a commit: `[selectedImage]` of the first
effect and `[imageElement, topText, bottomText]` of the second. -/
structure Changed where
  selection : Bool
  document : Bool

/-- One React commit: render, then the effects whose dependencies changed, in
source order. -/
def commit (env : Env) (d : Changed) (s : State) : State :=
  let s1 := render s
  let s2 := if d.selection then loadImageEffect s1 else s1
  if d.document then (previewEffect env s2).1 else s2

/-! ## Handlers -/

/-- The handler `handleImageSelect`, lines 58-60, and the commit that follows. -/
def handleImageSelect (env : Env) (imageUrl : Option String) (s : State) : State :=
  commit env { selection := decide (imageUrl ≠ s.selectedImage), document := false }
    { s with selectedImage := imageUrl }

/-- The updater of lines 65 and 68: a copy of `prev` in which `content` is
replaced and every other field is kept. -/
def withContent (prev : TextLayer) (content : String) : TextLayer :=
  { prev with content := content }

/-- The state updates of `handleAIMemeGenerated`, lines 62-70. -/
def aiMemeUpdates (imageUrl aiTopText aiBottomText : Option String) (s : State) : State :=
  let s1 := { s with selectedImage := imageUrl }
  let s2 :=
    match aiTopText with
    | some t => if truthy (some t) then { s1 with topText := withContent s1.topText t } else s1
    | none => s1
  match aiBottomText with
  | some t => if truthy (some t) then { s2 with bottomText := withContent s2.bottomText t } else s2
  | none => s2

/-- What lines 64-66 (and 67-69) make of a layer `l` for a supplied text: the
copy with the new content when the text is a non-empty string, `l` itself when the
text is empty or absent. -/
def layerAfter (supplied : Option String) (l : TextLayer) : TextLayer :=
  match supplied with
  | some t => if t ≠ "" then withContent l t else l
  | none => l

/-- The handler `handleAIMemeGenerated`, lines 62-70, and the commit that follows. -/
def handleAIMemeGenerated (env : Env) (imageUrl aiTopText aiBottomText : Option String)
    (s : State) : State :=
  commit env
    { selection := decide (imageUrl ≠ s.selectedImage),
      document := truthy aiTopText || truthy aiBottomText }
    (aiMemeUpdates imageUrl aiTopText aiBottomText s)

/-- The callback `img.onload`, lines 36-38, for the image object `img`. -/
def imgOnload (env : Env) (img : ImageElement) (s : State) : State :=
  commit env { selection := false, document := decide (s.imageElement ≠ some img) }
    { s with imageElement := some img }

/-- The callback `img.onerror`, lines 39-42. -/
def imgOnerror (env : Env) (s : State) : State :=
  commit env { selection := false, document := s.imageElement.isSome }
    { consoleError "Failed to load image" s with imageElement := none }

/-- Completion of the decode of the image object `img`: the browser fills in the
natural size and fires `onload`, or fires `onerror`. -/
def decodeDone (env : Env) (img : ImageElement) (r : DecodeResult) (s : State) : State :=
  let s1 := { s with pending := s.pending.filter (fun p => p.ident != img.ident) }
  match r with
  | DecodeResult.loaded w h => imgOnload env { img with width := w, height := h } s1
  | DecodeResult.failed => imgOnerror env s1

/-- The image a decode result stands for: the sized image on success, `null` on
failure. -/
def decodedImage (img : ImageElement) : DecodeResult → Option ImageElement
  | DecodeResult.loaded w h => some { img with width := w, height := h }
  | DecodeResult.failed => none

/-- The canvas built by lines 78-85 for the image `img`, as it is when line 88
passes it to the compositor. -/
def exportSurface (img : ImageElement) : Canvas :=
  let scale := 2
  let downloadCanvas := freshCanvas
  let sized := (downloadCanvas.setWidth (img.width * scale)).setHeight (img.height * scale)
  sized.scale scale scale

/-- The try block of `downloadMeme`, lines 77-94. -/
def downloadBody (env : Env) (img : ImageElement) (s : State) : State × Thrown :=
  let surface := exportSurface img
  let s1 := { s with canvasesMade := s.canvasesMade + 1 }
  let out := env.drawMemeOnCanvas surface img s1.topText s1.bottomText
  let s2 :=
    { s1 with
      draws := s1.draws ++
        [{ target := CanvasId.created s.canvasesMade, surface := surface, image := img,
           topText := s1.topText, bottomText := s1.bottomText }] }
  match out.thrown with
  | some e => (s2, some e)
  | none =>
    match env.toDataURL out.surface with
    | Except.error e => (s2, some e)
    | Except.ok href =>
      ({ s2 with
          downloads := s2.downloads ++
            [{ filename := "meme-" ++ toString env.now ++ ".png", href := href }] },
       none)

/-- The handler `downloadMeme`, lines 72-100. The second component is the exception
that leaves the function (the rejection of the returned promise), if any. -/
def downloadMeme (env : Env) (s : State) : State × Thrown :=
  match s.imageElement, s.canvasRef with
  | some img, some _ =>
    tryCatchFinally (downloadBody env img)
      (fun e st => (consoleError ("Error downloading meme: " ++ e) st, none))
      (fun st => ({ st with isGenerating := false }, none))
      { s with isGenerating := true }
  | _, _ => (s, none)

/-- The draw calls that were added to the trace between two states. -/
def newDraws (before after : State) : List DrawCall :=
  after.draws.drop before.draws.length

/-- Whether the export of `img` fails in state `s`: the compositor throws on the
export surface, or it returns and the encoder fails on what it drew. -/
def exportFails (env : Env) (img : ImageElement) (s : State) : Bool :=
  match (env.drawMemeOnCanvas (exportSurface img) img s.topText s.bottomText).thrown with
  | some _ => true
  | none =>
    match env.toDataURL
        (env.drawMemeOnCanvas (exportSurface img) img s.topText s.bottomText).surface with
    | Except.error _ => true
    | Except.ok _ => false

/-! ## A concrete environment and run, used to evaluate the definitions -/

/-- A compositor that paints one pixel value and never throws, an encoder that
always succeeds, clock at 1700000000000. -/
def paintingEnv : Env :=
  { drawMemeOnCanvas := fun cv _ _ _ => { surface := { cv with pixels := [1] }, thrown := none },
    toDataURL := fun _ => Except.ok "data:image/png;base64,AAAA",
    now := 1700000000000 }

/-- A compositor that always throws and an encoder that always fails. -/
def failingEnv : Env :=
  { drawMemeOnCanvas := fun cv _ _ _ => { surface := cv, thrown := some "RenderError" },
    toDataURL := fun _ => Except.error "SecurityError",
    now := 1700000000000 }

/-- The state after selecting "a.png" on a fresh component. -/
def selectedA : State :=
  handleImageSelect paintingEnv (some "a.png") initialState

/-- The state after "a.png" has been selected and decoded as an 800 by 800 image. -/
def loadedA : State :=
  decodeDone paintingEnv (newImage 0 "a.png") (DecodeResult.loaded 800 800) selectedA

/-- The image object of "a.png" once decoded as 800 by 800. -/
def loadedImageA : ImageElement :=
  { newImage 0 "a.png" with width := 800, height := 800 }

/-- The image object of "a.png" once decoded as 1024 by 768. -/
def wideImageA : ImageElement :=
  { newImage 0 "a.png" with width := 1024, height := 768 }

/-- The state after "a.png" has been selected and decoded as a 1024 by 768 image. -/
def loadedWide : State :=
  decodeDone paintingEnv (newImage 0 "a.png") (DecodeResult.loaded 1024 768) selectedA

/-- The image object of "a.png" once decoded with natural width 2^30 and natural
height 600. -/
def hugeImageA : ImageElement :=
  { newImage 0 "a.png" with width := 1073741824, height := 600 }

/-- The state after "a.png" has been selected and decoded with natural width 2^30
and natural height 600. -/
def loadedHuge : State :=
  decodeDone paintingEnv (newImage 0 "a.png") (DecodeResult.loaded 1073741824 600) selectedA

/-- The state after "a.png" and then "b.png" have been selected on a fresh
component, with neither decode completed. -/
def selectedAB : State :=
  handleImageSelect paintingEnv (some "b.png") selectedA

/-- The state reached from `s` by selecting `a` and then `b`. -/
def selectTwice (env : Env) (a b : String) (s : State) : State :=
  handleImageSelect env (some b) (handleImageSelect env (some a) s)

/-! ## Basic facts about the blocks -/

theorem downloadBody_draws (env : Env) (img : ImageElement) (s : State) :
    (downloadBody env img s).1.draws = s.draws ++
      [{ target := CanvasId.created s.canvasesMade, surface := exportSurface img,
         image := img, topText := s.topText, bottomText := s.bottomText }] := by
  unfold downloadBody
  dsimp only
  split
  · rfl
  · split <;> rfl

theorem newDraws_append (s t : State) (l : List DrawCall) (h : t.draws = s.draws ++ l) :
    newDraws s t = l := by
  simp [newDraws, h]

theorem newDraws_same (s t : State) (h : t.draws = s.draws) : newDraws s t = [] := by
  simp [newDraws, h]

theorem canvasDimension_of_le (dflt v : Nat) (h : v ≤ 2147483647) :
    canvasDimension dflt v = v := by
  have hm : toUnsignedLong v = v := by
    unfold toUnsignedLong
    exact Nat.mod_eq_of_lt (by omega)
  unfold canvasDimension maxCanvasDimension
  rw [hm, if_pos h]

theorem exportSurface_eq (img : ImageElement) :
    exportSurface img =
      { width := canvasDimension 300 (img.width * 2),
        height := canvasDimension 150 (img.height * 2), scaleX := 2, scaleY := 2,
        pixels := [] } := by
  simp [exportSurface, Canvas.setWidth, Canvas.setHeight, Canvas.scale, freshCanvas]

theorem downloadMeme_guard_image (env : Env) (s : State) (h : s.imageElement = none) :
    downloadMeme env s = (s, none) := by
  unfold downloadMeme
  rw [h]

theorem downloadMeme_guard_canvas (env : Env) (s : State) (h : s.canvasRef = none) :
    downloadMeme env s = (s, none) := by
  unfold downloadMeme
  rw [h]
  cases s.imageElement <;> rfl

theorem downloadMeme_run (env : Env) (s : State) (img : ImageElement) (hc : Canvas)
    (h1 : s.imageElement = some img) (h2 : s.canvasRef = some hc) :
    downloadMeme env s =
      match downloadBody env img { s with isGenerating := true } with
      | (s1, none) => ({ s1 with isGenerating := false }, none)
      | (s1, some e) =>
        ({ consoleError ("Error downloading meme: " ++ e) s1 with isGenerating := false },
          none) := by
  obtain ⟨sel, ie, tt, bt, ig, cr, pcr, pe, im, cm, dr, co, dl⟩ := s
  simp only at h1 h2
  subst h1 h2
  simp only [downloadMeme, tryCatchFinally, tryCatch]
  generalize downloadBody env img _ = r
  obtain ⟨s1, t⟩ := r
  cases t <;> rfl

/-- Every field of the state that the try block of `downloadMeme` leaves alone. -/
theorem downloadBody_frame (env : Env) (img : ImageElement) (s : State) :
    (downloadBody env img s).1.selectedImage = s.selectedImage ∧
    (downloadBody env img s).1.imageElement = s.imageElement ∧
    (downloadBody env img s).1.topText = s.topText ∧
    (downloadBody env img s).1.bottomText = s.bottomText ∧
    (downloadBody env img s).1.isGenerating = s.isGenerating ∧
    (downloadBody env img s).1.canvasRef = s.canvasRef ∧
    (downloadBody env img s).1.previewCanvasRef = s.previewCanvasRef ∧
    (downloadBody env img s).1.canvasesMade = s.canvasesMade + 1 ∧
    (downloadBody env img s).1.console = s.console := by
  unfold downloadBody
  dsimp only
  split
  · simp
  · split <;> simp

theorem downloadBody_fails (env : Env) (img : ImageElement) (s : State)
    (h : exportFails env img s = true) :
    (downloadBody env img s).1.downloads = s.downloads ∧
    (downloadBody env img s).2 ≠ none := by
  unfold exportFails at h
  unfold downloadBody
  dsimp only
  split
  · simp
  · rename_i hn
    rw [hn] at h
    dsimp only at h
    split
    · simp
    · rename_i href hok
      rw [hok] at h
      simp at h

theorem downloadBody_succeeds (env : Env) (img : ImageElement) (s : State)
    (h : exportFails env img s = false) :
    ∃ href,
      env.toDataURL
        (env.drawMemeOnCanvas (exportSurface img) img s.topText s.bottomText).surface =
          Except.ok href ∧
      (downloadBody env img s).1.downloads = s.downloads ++
        [{ filename := "meme-" ++ toString env.now ++ ".png", href := href }] ∧
      (downloadBody env img s).2 = none := by
  unfold exportFails at h
  unfold downloadBody
  dsimp only
  split
  · rename_i e he
    rw [he] at h
    simp at h
  · rename_i hn
    rw [hn] at h
    dsimp only at h
    split
    · rename_i e herr
      rw [herr] at h
      simp at h
    · rename_i href hok
      exact ⟨href, hok, rfl, rfl⟩

theorem downloadMeme_draws (env : Env) (s : State) (img : ImageElement) (hc : Canvas)
    (h1 : s.imageElement = some img) (h2 : s.canvasRef = some hc) :
    (downloadMeme env s).1.draws = s.draws ++
      [{ target := CanvasId.created s.canvasesMade, surface := exportSurface img,
         image := img, topText := s.topText, bottomText := s.bottomText }] := by
  rw [downloadMeme_run env s img hc h1 h2]
  have hd := downloadBody_draws env img { s with isGenerating := true }
  rcases hb : downloadBody env img { s with isGenerating := true } with ⟨s1, t⟩
  rw [hb] at hd
  cases t <;> exact hd

/-! ## The export path when no image is loaded -/

/-- C1, as the code has it: when no image is loaded (`imageElement` is null),
`downloadMeme` returns normally: nothing is thrown to the caller and nothing is
written to the console. -/
theorem downloadMeme_no_image_silent (env : Env) (s : State)
    (h : s.imageElement = none) :
    (downloadMeme env s).2 = none ∧ (downloadMeme env s).1.console = s.console := by
  rw [downloadMeme_guard_image env s h]
  exact ⟨rfl, rfl⟩

theorem downloadMeme_no_image_silent_witness :
    initialState.imageElement = none ∧
    ((downloadMeme failingEnv initialState).2 = none ∧
      (downloadMeme failingEnv initialState).1.console = initialState.console) :=
  ⟨rfl, downloadMeme_no_image_silent failingEnv initialState rfl⟩

/-- C1, counterexample: on the freshly mounted component no image is loaded, and an
export there raises no error and reports none: the call completes without a thrown
value and the console stays empty. -/
theorem downloadMeme_no_image_counterexample :
    initialState.imageElement = none ∧
    (downloadMeme failingEnv initialState).2 = none ∧
    (downloadMeme failingEnv initialState).1.console = [] := by
  decide

/-- C6: when no image is loaded, `downloadMeme` changes nothing at all: no canvas
is created, the compositor is not called, no download is triggered, and the
selection, the image handle, both layers and `isGenerating` keep their values. -/
theorem downloadMeme_no_image_frame (env : Env) (s : State)
    (h : s.imageElement = none) :
    (downloadMeme env s).1 = s ∧
    (downloadMeme env s).1.canvasesMade = s.canvasesMade ∧
    newDraws s (downloadMeme env s).1 = [] ∧
    (downloadMeme env s).1.downloads = s.downloads ∧
    (downloadMeme env s).1.selectedImage = s.selectedImage ∧
    (downloadMeme env s).1.imageElement = s.imageElement ∧
    (downloadMeme env s).1.topText = s.topText ∧
    (downloadMeme env s).1.bottomText = s.bottomText ∧
    (downloadMeme env s).1.isGenerating = s.isGenerating := by
  rw [downloadMeme_guard_image env s h]
  refine ⟨rfl, rfl, ?_, rfl, rfl, rfl, rfl, rfl, rfl⟩
  exact newDraws_same s s rfl

theorem downloadMeme_no_image_frame_witness :
    initialState.imageElement = none ∧
    (downloadMeme paintingEnv initialState).1 = initialState ∧
    (downloadMeme paintingEnv initialState).1.downloads = [] :=
  ⟨rfl, (downloadMeme_no_image_frame paintingEnv initialState rfl).1,
    (downloadMeme_no_image_frame paintingEnv initialState rfl).2.2.2.1⟩

/-! ## The export surface -/

/-- C3, as the code has it: with an image of width `w` and height `h` loaded, every
compositor call that `downloadMeme` makes receives a canvas newly made by
`document.createElement` (so not the preview canvas), whose width is what the canvas
accepts for `2 * w` and whose height is what it accepts for `2 * h`: exactly `2 * w`
when `2 * w` is at most 2147483647, and exactly `2 * h` when `2 * h` is at most
2147483647. When the hidden canvas is mounted exactly one such call is made and
exactly one canvas is created; the preview canvas is left as it was. -/
theorem downloadMeme_export_surface (env : Env) (s : State) (img : ImageElement)
    (h : s.imageElement = some img) :
    (∀ call ∈ newDraws s (downloadMeme env s).1,
      call.target = CanvasId.created s.canvasesMade ∧
      call.target ≠ CanvasId.previewCanvas ∧
      call.surface.width = canvasDimension 300 (img.width * 2) ∧
      call.surface.height = canvasDimension 150 (img.height * 2) ∧
      (2 * img.width ≤ 2147483647 → call.surface.width = 2 * img.width) ∧
      (2 * img.height ≤ 2147483647 → call.surface.height = 2 * img.height)) ∧
    (s.canvasRef ≠ none →
      (newDraws s (downloadMeme env s).1).length = 1 ∧
      (downloadMeme env s).1.canvasesMade = s.canvasesMade + 1) ∧
    (downloadMeme env s).1.previewCanvasRef = s.previewCanvasRef := by
  cases hcr : s.canvasRef with
  | none =>
    rw [downloadMeme_guard_canvas env s hcr]
    refine ⟨?_, fun hne => absurd rfl hne, rfl⟩
    intro call hcall
    rw [newDraws_same s s rfl] at hcall
    cases hcall
  | some hc =>
    have hd := downloadMeme_draws env s img hc h hcr
    have hn := newDraws_append s (downloadMeme env s).1 _ hd
    have hrun := downloadMeme_run env s img hc h hcr
    have hf := downloadBody_frame env img { s with isGenerating := true }
    refine ⟨?_, fun _ => ⟨?_, ?_⟩, ?_⟩
    · intro call hcall
      rw [hn] at hcall
      simp only [List.mem_singleton] at hcall
      subst hcall
      rw [exportSurface_eq]
      refine ⟨rfl, fun hne => CanvasId.noConfusion hne, rfl, rfl, fun hw => ?_, fun hh => ?_⟩
      · show canvasDimension 300 (img.width * 2) = 2 * img.width
        rw [canvasDimension_of_le 300 (img.width * 2) (by omega)]
        omega
      · show canvasDimension 150 (img.height * 2) = 2 * img.height
        rw [canvasDimension_of_le 150 (img.height * 2) (by omega)]
        omega
    · rw [hn]
      rfl
    · rw [hrun]
      rcases hb : downloadBody env img { s with isGenerating := true } with ⟨s1, t⟩
      rw [hb] at hf
      cases t <;> exact hf.2.2.2.2.2.2.2.1
    · rw [hrun]
      rcases hb : downloadBody env img { s with isGenerating := true } with ⟨s1, t⟩
      rw [hb] at hf
      cases t <;> exact hf.2.2.2.2.2.2.1

theorem downloadMeme_export_surface_witness :
    loadedWide.imageElement = some wideImageA ∧
    (∀ call ∈ newDraws loadedWide (downloadMeme paintingEnv loadedWide).1,
      call.surface.width = 2 * wideImageA.width ∧
      call.surface.height = 2 * wideImageA.height) ∧
    (newDraws loadedWide (downloadMeme paintingEnv loadedWide).1).length = 1 :=
  ⟨by decide,
    fun call hc =>
      ⟨((downloadMeme_export_surface paintingEnv loadedWide wideImageA (by decide)).1
          call hc).2.2.2.2.1 (by decide),
        ((downloadMeme_export_surface paintingEnv loadedWide wideImageA (by decide)).1
          call hc).2.2.2.2.2 (by decide)⟩,
    ((downloadMeme_export_surface paintingEnv loadedWide wideImageA (by decide)).2.1
      (by decide)).1⟩

/-- C3, counterexample: "a.png" is loaded with natural width 2^30 and natural
height 600. The export assigns 2^31 to `canvas.width`, which is above the largest
value the attribute accepts, so the surface handed to the compositor is 300 pixels
wide (and 1200 high), not 2^31 wide. -/
theorem export_surface_range_counterexample :
    loadedHuge.imageElement = some hugeImageA ∧
    (newDraws loadedHuge (downloadMeme paintingEnv loadedHuge).1).map
        (fun c => (c.target, c.image.width, c.image.height, c.surface.width,
          c.surface.height)) =
      [(CanvasId.created 0, 1073741824, 600, 300, 1200)] ∧
    2 * hugeImageA.width ≠ 300 := by
  decide

/-! ## Failures during export -/

/-- C7: with an image loaded, `downloadMeme` never lets an exception out, and leaves
the selection, the image handle and both layers as they were. Whenever it reaches
the compositor, `isGenerating` is false when it has finished; if the compositor or
the encoder failed, no download was triggered and the failure was logged; if both
succeeded, exactly one download was triggered. -/
theorem downloadMeme_failure_contained (env : Env) (s : State) (img : ImageElement)
    (h : s.imageElement = some img) :
    (downloadMeme env s).2 = none ∧
    (downloadMeme env s).1.selectedImage = s.selectedImage ∧
    (downloadMeme env s).1.imageElement = s.imageElement ∧
    (downloadMeme env s).1.topText = s.topText ∧
    (downloadMeme env s).1.bottomText = s.bottomText ∧
    (newDraws s (downloadMeme env s).1 ≠ [] →
      (downloadMeme env s).1.isGenerating = false ∧
      (exportFails env img s = true →
        (downloadMeme env s).1.downloads = s.downloads ∧
        (downloadMeme env s).1.console.length = s.console.length + 1) ∧
      (exportFails env img s = false →
        (downloadMeme env s).1.downloads.length = s.downloads.length + 1 ∧
        (downloadMeme env s).1.console = s.console)) := by
  cases hcr : s.canvasRef with
  | none =>
    rw [downloadMeme_guard_canvas env s hcr]
    refine ⟨rfl, rfl, rfl, rfl, rfl, fun hne => ?_⟩
    exact absurd (newDraws_same s s rfl) hne
  | some hc =>
    have hrun := downloadMeme_run env s img hc h hcr
    have hf := downloadBody_frame env img { s with isGenerating := true }
    have hfail := downloadBody_fails env img { s with isGenerating := true }
    have hsucc := downloadBody_succeeds env img { s with isGenerating := true }
    have hex : exportFails env img { s with isGenerating := true } = exportFails env img s :=
      rfl
    rw [hex] at hfail hsucc
    rw [hrun]
    rcases hb : downloadBody env img { s with isGenerating := true } with ⟨s1, t⟩
    rw [hb] at hf hfail hsucc
    obtain ⟨f1, f2, f3, f4, -, -, -, -, f9⟩ := hf
    simp only at f1 f2 f3 f4 f9 hfail hsucc
    cases t with
    | none =>
      refine ⟨rfl, f1, f2, f3, f4, fun _ => ⟨rfl, fun hx => ?_, fun hx => ?_⟩⟩
      · exact absurd rfl (hfail hx).2
      · obtain ⟨href, -, hdl, -⟩ := hsucc hx
        refine ⟨?_, f9⟩
        show s1.downloads.length = _
        rw [hdl]
        simp
    | some e =>
      refine ⟨rfl, f1, f2, f3, f4, fun _ => ⟨rfl, fun hx => ?_, fun hx => ?_⟩⟩
      · refine ⟨(hfail hx).1, ?_⟩
        show (s1.console ++ _).length = _
        rw [f9]
        simp
      · obtain ⟨href, -, -, hnone⟩ := hsucc hx
        cases hnone

theorem downloadMeme_failure_contained_witness :
    loadedA.imageElement = some loadedImageA ∧
    (downloadMeme failingEnv loadedA).2 = none ∧
    (downloadMeme failingEnv loadedA).1.imageElement = loadedA.imageElement ∧
    (downloadMeme failingEnv loadedA).1.isGenerating = false ∧
    (downloadMeme failingEnv loadedA).1.downloads = loadedA.downloads :=
  ⟨by decide,
    (downloadMeme_failure_contained failingEnv loadedA loadedImageA (by decide)).1,
    (downloadMeme_failure_contained failingEnv loadedA loadedImageA (by decide)).2.2.1,
    ((downloadMeme_failure_contained failingEnv loadedA loadedImageA (by decide)).2.2.2.2.2
      (by decide)).1,
    (((downloadMeme_failure_contained failingEnv loadedA loadedImageA (by decide)).2.2.2.2.2
      (by decide)).2.1 (by decide)).1⟩

/-! ## The preview effect -/

theorem previewEffect_run (env : Env) (s : State) (img : ImageElement) (pc : Canvas)
    (h1 : s.imageElement = some img) (h2 : s.previewCanvasRef = some pc) :
    previewEffect env s =
      match (env.drawMemeOnCanvas pc img s.topText s.bottomText).thrown with
      | none => ((drawPreview env pc img s).1, none)
      | some e =>
        (consoleError ("Error drawing preview: " ++ e) (drawPreview env pc img s).1, none) := by
  unfold previewEffect
  rw [h1, h2]
  simp only [tryCatch, drawPreview]
  cases (env.drawMemeOnCanvas pc img s.topText s.bottomText).thrown <;> rfl

theorem previewEffect_idle (env : Env) (s : State)
    (h : s.imageElement = none ∨ s.previewCanvasRef = none) :
    previewEffect env s = (s, none) := by
  unfold previewEffect
  rcases h with h | h
  · rw [h]
  · rw [h]
    cases s.imageElement <;> rfl

theorem previewEffect_draws (env : Env) (s : State) (img : ImageElement) (pc : Canvas)
    (h1 : s.imageElement = some img) (h2 : s.previewCanvasRef = some pc) :
    (previewEffect env s).1.draws = s.draws ++
      [{ target := CanvasId.previewCanvas, surface := pc, image := img,
         topText := s.topText, bottomText := s.bottomText }] := by
  rw [previewEffect_run env s img pc h1 h2]
  cases (env.drawMemeOnCanvas pc img s.topText s.bottomText).thrown <;> rfl

/-- The preview effect never throws and touches only the preview canvas, the draw
trace and the console. -/
theorem previewEffect_frame (env : Env) (s : State) :
    (previewEffect env s).2 = none ∧
    (previewEffect env s).1.selectedImage = s.selectedImage ∧
    (previewEffect env s).1.imageElement = s.imageElement ∧
    (previewEffect env s).1.topText = s.topText ∧
    (previewEffect env s).1.bottomText = s.bottomText ∧
    (previewEffect env s).1.isGenerating = s.isGenerating ∧
    (previewEffect env s).1.pending = s.pending ∧
    (previewEffect env s).1.imagesMade = s.imagesMade := by
  cases h1 : s.imageElement with
  | none =>
    rw [previewEffect_idle env s (Or.inl h1)]
    exact ⟨rfl, rfl, h1, rfl, rfl, rfl, rfl, rfl⟩
  | some img =>
    cases h2 : s.previewCanvasRef with
    | none =>
      rw [previewEffect_idle env s (Or.inr h2)]
      exact ⟨rfl, rfl, h1, rfl, rfl, rfl, rfl, rfl⟩
    | some pc =>
      rw [previewEffect_run env s img pc h1 h2]
      cases (env.drawMemeOnCanvas pc img s.topText s.bottomText).thrown <;>
        exact ⟨rfl, rfl, h1, rfl, rfl, rfl, rfl, rfl⟩

theorem render_frame (s : State) :
    (render s).selectedImage = s.selectedImage ∧
    (render s).imageElement = s.imageElement ∧
    (render s).topText = s.topText ∧
    (render s).bottomText = s.bottomText ∧
    (render s).isGenerating = s.isGenerating ∧
    (render s).pending = s.pending ∧
    (render s).imagesMade = s.imagesMade ∧
    (render s).draws = s.draws := by
  unfold render
  split <;> exact ⟨rfl, rfl, rfl, rfl, rfl, rfl, rfl, rfl⟩

theorem loadImageEffect_frame (s : State) :
    (loadImageEffect s).selectedImage = s.selectedImage ∧
    (loadImageEffect s).imageElement = s.imageElement ∧
    (loadImageEffect s).topText = s.topText ∧
    (loadImageEffect s).bottomText = s.bottomText ∧
    (loadImageEffect s).isGenerating = s.isGenerating ∧
    (loadImageEffect s).previewCanvasRef = s.previewCanvasRef ∧
    (loadImageEffect s).draws = s.draws := by
  unfold loadImageEffect
  split
  · split <;> exact ⟨rfl, rfl, rfl, rfl, rfl, rfl, rfl⟩
  · exact ⟨rfl, rfl, rfl, rfl, rfl, rfl, rfl⟩

/-- A commit leaves the five state cells as the handler set them. -/
theorem commit_frame (env : Env) (d : Changed) (s : State) :
    (commit env d s).selectedImage = s.selectedImage ∧
    (commit env d s).imageElement = s.imageElement ∧
    (commit env d s).topText = s.topText ∧
    (commit env d s).bottomText = s.bottomText ∧
    (commit env d s).isGenerating = s.isGenerating := by
  have hr := render_frame s
  unfold commit
  dsimp only
  have hl : ∀ t : State, t = (if d.selection then loadImageEffect (render s) else render s) →
      t.selectedImage = s.selectedImage ∧ t.imageElement = s.imageElement ∧
      t.topText = s.topText ∧ t.bottomText = s.bottomText ∧
      t.isGenerating = s.isGenerating := by
    intro t ht
    subst ht
    split
    · have hle := loadImageEffect_frame (render s)
      exact ⟨hle.1.trans hr.1, hle.2.1.trans hr.2.1, hle.2.2.1.trans hr.2.2.1,
        hle.2.2.2.1.trans hr.2.2.2.1, hle.2.2.2.2.1.trans hr.2.2.2.2.1⟩
    · exact ⟨hr.1, hr.2.1, hr.2.2.1, hr.2.2.2.1, hr.2.2.2.2.1⟩
  have ht := hl _ rfl
  split
  · have hp := previewEffect_frame env
      (if d.selection then loadImageEffect (render s) else render s)
    exact ⟨hp.2.1.trans ht.1, hp.2.2.1.trans ht.2.1, hp.2.2.2.1.trans ht.2.2.1,
      hp.2.2.2.2.1.trans ht.2.2.2.1, hp.2.2.2.2.2.1.trans ht.2.2.2.2⟩
  · exact ht

/-- C8: with an image loaded, a run of the preview effect never lets an exception
out, calls the compositor at most once, and leaves the selection, the image handle
and both layers as they were, and starts no new decode. When the compositor throws
on the mounted preview canvas, it was called exactly once (no retry) and the error
went to the console. -/
theorem previewEffect_error_contained (env : Env) (s : State) (img : ImageElement)
    (h : s.imageElement = some img) :
    (previewEffect env s).2 = none ∧
    (newDraws s (previewEffect env s).1).length ≤ 1 ∧
    (previewEffect env s).1.selectedImage = s.selectedImage ∧
    (previewEffect env s).1.imageElement = s.imageElement ∧
    (previewEffect env s).1.topText = s.topText ∧
    (previewEffect env s).1.bottomText = s.bottomText ∧
    (previewEffect env s).1.pending = s.pending ∧
    (previewEffect env s).1.imagesMade = s.imagesMade ∧
    (∀ pc e, s.previewCanvasRef = some pc →
      (env.drawMemeOnCanvas pc img s.topText s.bottomText).thrown = some e →
      (newDraws s (previewEffect env s).1).length = 1 ∧
      (previewEffect env s).1.console = s.console ++ ["Error drawing preview: " ++ e]) := by
  have hf := previewEffect_frame env s
  refine ⟨hf.1, ?_, hf.2.1, hf.2.2.1, hf.2.2.2.1, hf.2.2.2.2.1, hf.2.2.2.2.2.2.1,
    hf.2.2.2.2.2.2.2, ?_⟩
  · cases h2 : s.previewCanvasRef with
    | none =>
      rw [previewEffect_idle env s (Or.inr h2), newDraws_same s s rfl]
      simp
    | some pc =>
      rw [newDraws_append s _ _ (previewEffect_draws env s img pc h h2)]
      simp
  · intro pc e h2 hthrown
    refine ⟨?_, ?_⟩
    · rw [newDraws_append s _ _ (previewEffect_draws env s img pc h h2)]
      rfl
    · rw [previewEffect_run env s img pc h h2, hthrown]
      rfl

theorem previewEffect_error_contained_witness :
    loadedA.imageElement = some loadedImageA ∧
    (previewEffect failingEnv loadedA).2 = none ∧
    (newDraws loadedA (previewEffect failingEnv loadedA).1).length = 1 ∧
    (previewEffect failingEnv loadedA).1.imageElement = loadedA.imageElement :=
  ⟨by decide,
    (previewEffect_error_contained failingEnv loadedA loadedImageA (by decide)).1,
    ((previewEffect_error_contained failingEnv loadedA loadedImageA (by decide)).2.2.2.2.2.2.2.2
      { freshCanvas with pixels := [1] } "RenderError" (by decide) (by decide)).1,
    (previewEffect_error_contained failingEnv loadedA loadedImageA (by decide)).2.2.2.1⟩

/-! ## The surface the preview path passes -/

/-- C5, as the code has it: with an image loaded and the preview canvas mounted,
the preview effect calls the compositor once, on the preview canvas exactly as it
is at that moment; the effect does not size it, so its pixel size at the call is
whatever it was before, independent of the size of the image. -/
theorem previewEffect_surface_as_is (env : Env) (s : State) (img : ImageElement)
    (pc : Canvas) (h1 : s.imageElement = some img) (h2 : s.previewCanvasRef = some pc) :
    newDraws s (previewEffect env s).1 =
      [{ target := CanvasId.previewCanvas, surface := pc, image := img,
         topText := s.topText, bottomText := s.bottomText }] ∧
    ∀ call ∈ newDraws s (previewEffect env s).1,
      call.surface.width = pc.width ∧ call.surface.height = pc.height := by
  have hn := newDraws_append s _ _ (previewEffect_draws env s img pc h1 h2)
  refine ⟨hn, ?_⟩
  intro call hcall
  rw [hn] at hcall
  simp only [List.mem_singleton] at hcall
  subst hcall
  exact ⟨rfl, rfl⟩

theorem previewEffect_surface_as_is_witness :
    loadedA.imageElement = some loadedImageA ∧
    loadedA.previewCanvasRef = some { freshCanvas with pixels := [1] } ∧
    ∀ call ∈ newDraws loadedA (previewEffect paintingEnv loadedA).1,
      call.surface.width = 300 ∧ call.surface.height = 150 :=
  ⟨by decide, by decide,
    (previewEffect_surface_as_is paintingEnv loadedA loadedImageA
      { freshCanvas with pixels := [1] } (by decide) (by decide)).2⟩

/-- C5, counterexample: after "a.png" is selected the preview canvas is mounted at
the default 300 by 150; when the image then loads as 800 by 800, the one compositor
call of the preview path gets the 800 by 800 image and a 300 by 150 surface. -/
theorem preview_surface_counterexample :
    selectedA.previewCanvasRef = some freshCanvas ∧
    (newDraws selectedA loadedA).map
        (fun c => (c.target, c.image.width, c.image.height, c.surface.width, c.surface.height)) =
      [(CanvasId.previewCanvas, 800, 800, 300, 150)] := by
  decide

/-! ## Export against preview -/

/-- C4, as the code has it: with an image loaded and both canvases mounted, the
preview effect and `downloadMeme` each call the compositor once, with the same image
handle and the same top and bottom layers. The preview call gets the preview canvas
as it is, with no transform applied by the caller; the export call gets a new canvas
on whose context `scale(2, 2)` has been applied, and whose width and height are what
the canvas accepts for `2 * w` and `2 * h`: exactly `2 * w` by `2 * h` when both are
at most 2147483647. -/
theorem export_call_vs_preview_call (env : Env) (s : State) (img : ImageElement)
    (pc hc : Canvas) (h1 : s.imageElement = some img)
    (h2 : s.previewCanvasRef = some pc) (h3 : s.canvasRef = some hc) :
    newDraws s (previewEffect env s).1 =
      [{ target := CanvasId.previewCanvas, surface := pc, image := img,
         topText := s.topText, bottomText := s.bottomText }] ∧
    newDraws s (downloadMeme env s).1 =
      [{ target := CanvasId.created s.canvasesMade,
         surface :=
           { width := canvasDimension 300 (img.width * 2),
             height := canvasDimension 150 (img.height * 2), scaleX := 2, scaleY := 2,
             pixels := [] },
         image := img, topText := s.topText, bottomText := s.bottomText }] ∧
    (2 * img.width ≤ 2147483647 → 2 * img.height ≤ 2147483647 →
      newDraws s (downloadMeme env s).1 =
        [{ target := CanvasId.created s.canvasesMade,
           surface :=
             { width := 2 * img.width, height := 2 * img.height, scaleX := 2, scaleY := 2,
               pixels := [] },
           image := img, topText := s.topText, bottomText := s.bottomText }]) := by
  have he : newDraws s (downloadMeme env s).1 =
      [{ target := CanvasId.created s.canvasesMade,
         surface :=
           { width := canvasDimension 300 (img.width * 2),
             height := canvasDimension 150 (img.height * 2), scaleX := 2, scaleY := 2,
             pixels := [] },
         image := img, topText := s.topText, bottomText := s.bottomText }] := by
    rw [newDraws_append s _ _ (downloadMeme_draws env s img hc h1 h3), exportSurface_eq]
  refine ⟨newDraws_append s _ _ (previewEffect_draws env s img pc h1 h2), he, ?_⟩
  intro hw hh
  rw [he, canvasDimension_of_le 300 (img.width * 2) (by omega),
    canvasDimension_of_le 150 (img.height * 2) (by omega), Nat.mul_comm img.width,
    Nat.mul_comm img.height]

theorem export_call_vs_preview_call_witness :
    loadedWide.imageElement = some wideImageA ∧
    newDraws loadedWide (downloadMeme paintingEnv loadedWide).1 =
      [{ target := CanvasId.created loadedWide.canvasesMade,
         surface :=
           { width := 2 * wideImageA.width, height := 2 * wideImageA.height,
             scaleX := 2, scaleY := 2, pixels := [] },
         image := wideImageA, topText := loadedWide.topText,
         bottomText := loadedWide.bottomText }] :=
  ⟨by decide,
    (export_call_vs_preview_call paintingEnv loadedWide wideImageA
      { freshCanvas with pixels := [1] } freshCanvas (by decide) (by decide)
      (by decide)).2.2 (by decide) (by decide)⟩

/-- C4, counterexample: "a.png" is selected and loads as 800 by 800, which runs the
preview path on the newly mounted preview canvas; `downloadMeme` is then invoked in
the same document state. Both calls get the same image and layers, but the preview
surface carries the identity transform (1, 1) and the export surface carries the
scaling (2, 2): the two surfaces differ in more than their pixel size. -/
theorem export_transform_counterexample :
    (newDraws selectedA loadedA).map
        (fun c => (c.image, c.topText, c.bottomText, c.surface.scaleX, c.surface.scaleY)) =
      [(loadedImageA, initialTopText, initialBottomText, 1, 1)] ∧
    (newDraws loadedA (downloadMeme paintingEnv loadedA).1).map
        (fun c => (c.image, c.topText, c.bottomText, c.surface.scaleX, c.surface.scaleY)) =
      [(loadedImageA, initialTopText, initialBottomText, 2, 2)] := by
  decide

/-! ## Decode completions -/

theorem commit_without_image (env : Env) (doc : Bool) (s : State)
    (h : s.imageElement = none) :
    commit env { selection := false, document := doc } s = render s := by
  unfold commit
  cases doc with
  | false => rfl
  | true =>
    show (previewEffect env (render s)).1 = render s
    rw [previewEffect_idle env (render s) (Or.inl ((render_frame s).2.1.trans h))]

theorem decodeDone_failed_eq (env : Env) (img : ImageElement) (s : State) :
    decodeDone env img DecodeResult.failed s =
      render
        { consoleError "Failed to load image"
            { s with pending := s.pending.filter (fun p => p.ident != img.ident) } with
          imageElement := none } := by
  simp only [decodeDone, imgOnerror]
  exact commit_without_image env _ _ rfl

/-- Whatever the state, a decode completion sets the image handle to its own
result. -/
theorem decodeDone_imageElement (env : Env) (img : ImageElement) (r : DecodeResult)
    (s : State) : (decodeDone env img r s).imageElement = decodedImage img r := by
  cases r with
  | loaded w h =>
    simp only [decodeDone, imgOnload, decodedImage]
    exact (commit_frame env _ _).2.1
  | failed =>
    simp only [decodeDone, imgOnerror, decodedImage]
    exact (commit_frame env _ _).2.1

theorem handleImageSelect_new (env : Env) (a : String) (s : State) (ha : a ≠ "")
    (hs : s.selectedImage ≠ some a) :
    (handleImageSelect env (some a) s).pending = s.pending ++ [newImage s.imagesMade a] ∧
    (handleImageSelect env (some a) s).imagesMade = s.imagesMade + 1 ∧
    (handleImageSelect env (some a) s).selectedImage = some a ∧
    (handleImageSelect env (some a) s).imageElement = s.imageElement := by
  have hs2 : ¬ (some a = s.selectedImage) := fun h => hs h.symm
  simp [handleImageSelect, commit, render, loadImageEffect, truthy, ha, hs2]

/-- C9, as the code has it: when the decode of the selected source fails, the image
handle becomes null, no new decode is started (no image object is made, the pending
list only loses the failed image), the compositor is not called, and the preview
panel keeps showing the canvas, because the selection is still set; the placeholder
is not shown. -/
theorem decode_failure_effect (env : Env) (s : State) (img : ImageElement)
    (h : s.selectedImage = some img.src) (ht : truthy s.selectedImage = true) :
    (decodeDone env img DecodeResult.failed s).imageElement = none ∧
    (decodeDone env img DecodeResult.failed s).imagesMade = s.imagesMade ∧
    (decodeDone env img DecodeResult.failed s).pending =
      s.pending.filter (fun p => p.ident != img.ident) ∧
    newDraws s (decodeDone env img DecodeResult.failed s) = [] ∧
    (decodeDone env img DecodeResult.failed s).selectedImage = some img.src ∧
    previewPane (decodeDone env img DecodeResult.failed s) = PreviewPane.drawingSurface ∧
    (decodeDone env img DecodeResult.failed s).previewCanvasRef ≠ none := by
  rw [decodeDone_failed_eq]
  have hr := render_frame
    { consoleError "Failed to load image"
        { s with pending := s.pending.filter (fun p => p.ident != img.ident) } with
      imageElement := none }
  refine ⟨hr.2.1, hr.2.2.2.2.2.2.1, hr.2.2.2.2.2.1, newDraws_same s _ hr.2.2.2.2.2.2.2,
    hr.1.trans h, ?_, ?_⟩
  · unfold previewPane
    rw [hr.1]
    show (if truthy s.selectedImage = true then _ else _) = _
    rw [ht]
    rfl
  · unfold render
    simp only [consoleError]
    rw [ht]
    simp

theorem decode_failure_effect_witness :
    selectedA.selectedImage = some (newImage 0 "a.png").src ∧
    (decodeDone paintingEnv (newImage 0 "a.png") DecodeResult.failed selectedA).imageElement =
      none ∧
    previewPane (decodeDone paintingEnv (newImage 0 "a.png") DecodeResult.failed selectedA) =
      PreviewPane.drawingSurface :=
  ⟨by decide,
    (decode_failure_effect paintingEnv selectedA (newImage 0 "a.png") (by decide)
      (by decide)).1,
    (decode_failure_effect paintingEnv selectedA (newImage 0 "a.png") (by decide)
      (by decide)).2.2.2.2.2.1⟩

/-- C9, counterexample: "a.png" is selected and its decode fails; the image handle
is null, yet the preview panel shows the canvas and not the placeholder. -/
theorem decode_failure_counterexample :
    selectedA.selectedImage = some "a.png" ∧
    selectedA.pending = [newImage 0 "a.png"] ∧
    (decodeDone paintingEnv (newImage 0 "a.png") DecodeResult.failed selectedA).imageElement =
      none ∧
    previewPane (decodeDone paintingEnv (newImage 0 "a.png") DecodeResult.failed selectedA) ≠
      PreviewPane.placeholder := by
  decide

/-- C2, as the code has it: when the selection changes to `a` and then to `b`
before either decode completes, both decodes are in flight and every completion is
applied when it arrives, whether or not its source is still the selection: a
successful decode makes its image the active image, a failed one makes it null. So
the decode of `a` does set the active image, and after both completions the active
image is the result of the one that arrived last. -/
theorem decode_completions_all_applied (env : Env) (s : State) (a b : String)
    (ra rb : DecodeResult) (ha : a ≠ "") (hb : b ≠ "") (hab : a ≠ b)
    (hs : s.selectedImage ≠ some a) :
    (selectTwice env a b s).pending =
      s.pending ++ [newImage s.imagesMade a, newImage (s.imagesMade + 1) b] ∧
    (selectTwice env a b s).selectedImage = some b ∧
    (selectTwice env a b s).imageElement = s.imageElement ∧
    (decodeDone env (newImage s.imagesMade a) ra (selectTwice env a b s)).imageElement =
      decodedImage (newImage s.imagesMade a) ra ∧
    (decodeDone env (newImage (s.imagesMade + 1) b) rb
        (decodeDone env (newImage s.imagesMade a) ra (selectTwice env a b s))).imageElement =
      decodedImage (newImage (s.imagesMade + 1) b) rb ∧
    (decodeDone env (newImage s.imagesMade a) ra
        (decodeDone env (newImage (s.imagesMade + 1) b) rb (selectTwice env a b s))).imageElement =
      decodedImage (newImage s.imagesMade a) ra := by
  have h1 := handleImageSelect_new env a s ha hs
  have hne : (handleImageSelect env (some a) s).selectedImage ≠ some b := by
    rw [h1.2.2.1]
    intro h
    exact hab (Option.some.inj h)
  have h2 := handleImageSelect_new env b (handleImageSelect env (some a) s) hb hne
  refine ⟨?_, h2.2.2.1, h2.2.2.2.trans h1.2.2.2, decodeDone_imageElement _ _ _ _,
    decodeDone_imageElement _ _ _ _, decodeDone_imageElement _ _ _ _⟩
  unfold selectTwice
  rw [h2.1, h1.1, h1.2.1]
  simp

theorem decode_completions_all_applied_witness :
    (selectTwice paintingEnv "a.png" "b.png" initialState).pending =
      [newImage 0 "a.png", newImage 1 "b.png"] ∧
    (decodeDone paintingEnv (newImage 0 "a.png") (DecodeResult.loaded 800 800)
        (decodeDone paintingEnv (newImage 1 "b.png") (DecodeResult.loaded 640 480)
          (selectTwice paintingEnv "a.png" "b.png" initialState))).imageElement =
      decodedImage (newImage 0 "a.png") (DecodeResult.loaded 800 800) :=
  ⟨(decode_completions_all_applied paintingEnv initialState "a.png" "b.png"
      (DecodeResult.loaded 800 800) (DecodeResult.loaded 640 480) (by decide) (by decide)
      (by decide) (by decide)).1,
    (decode_completions_all_applied paintingEnv initialState "a.png" "b.png"
      (DecodeResult.loaded 800 800) (DecodeResult.loaded 640 480) (by decide) (by decide)
      (by decide) (by decide)).2.2.2.2.2⟩

/-- C2, counterexample: "a.png" and then "b.png" are selected; the decode of
"b.png" completes (640 by 480), then the decode of "a.png" completes (800 by 800).
The active image is then the image of "a.png", while the selection is "b.png". -/
theorem stale_decode_counterexample :
    selectedAB.selectedImage = some "b.png" ∧
    selectedAB.imageElement = none ∧
    selectedAB.pending = [newImage 0 "a.png", newImage 1 "b.png"] ∧
    (decodeDone paintingEnv (newImage 0 "a.png") (DecodeResult.loaded 800 800)
        (decodeDone paintingEnv (newImage 1 "b.png") (DecodeResult.loaded 640 480)
          selectedAB)).imageElement =
      some { ident := 0, src := "a.png", crossOrigin := "anonymous", width := 800,
             height := 800 } := by
  decide

/-! ## The AI meme handler -/

theorem aiMemeUpdates_selectedImage (imageUrl aiTopText aiBottomText : Option String)
    (s : State) : (aiMemeUpdates imageUrl aiTopText aiBottomText s).selectedImage = imageUrl := by
  unfold aiMemeUpdates
  cases aiTopText with
  | none =>
    cases aiBottomText with
    | none => rfl
    | some b => dsimp only; split <;> rfl
  | some t =>
    cases aiBottomText with
    | none => dsimp only; split <;> rfl
    | some b => dsimp only; split <;> split <;> rfl

theorem aiMemeUpdates_topText (imageUrl aiTopText aiBottomText : Option String)
    (s : State) :
    (aiMemeUpdates imageUrl aiTopText aiBottomText s).topText =
      layerAfter aiTopText s.topText := by
  unfold aiMemeUpdates layerAfter
  cases aiTopText with
  | none =>
    cases aiBottomText with
    | none => rfl
    | some b => dsimp only; split <;> rfl
  | some t =>
    by_cases ht : t = ""
    · subst ht
      cases aiBottomText with
      | none => simp [truthy]
      | some b => by_cases hb : b = "" <;> simp [truthy, hb]
    · cases aiBottomText with
      | none => simp [truthy, ht]
      | some b => by_cases hb : b = "" <;> simp [truthy, ht, hb]

theorem aiMemeUpdates_bottomText (imageUrl aiTopText aiBottomText : Option String)
    (s : State) :
    (aiMemeUpdates imageUrl aiTopText aiBottomText s).bottomText =
      layerAfter aiBottomText s.bottomText := by
  unfold aiMemeUpdates layerAfter
  cases aiBottomText with
  | none =>
    cases aiTopText with
    | none => rfl
    | some b => dsimp only; split <;> rfl
  | some t =>
    by_cases ht : t = ""
    · subst ht
      cases aiTopText with
      | none => simp [truthy]
      | some b => by_cases hb : b = "" <;> simp [truthy, hb]
    · cases aiTopText with
      | none => simp [truthy, ht]
      | some b => by_cases hb : b = "" <;> simp [truthy, ht, hb]

/-- C10: after `handleAIMemeGenerated(url, aiTop, aiBottom)` the selection is `url`;
a layer whose supplied text is a non-empty string has that text as content, a layer
whose supplied text is empty or absent is the same layer as before; in every case
`fontSize`, `color`, `stroke`, `strokeWidth` and `y` of both layers keep their
values, so a layer that met the constraints (as the defaults do) still meets them. -/
theorem handleAIMemeGenerated_layers (env : Env) (s : State)
    (imageUrl aiTopText aiBottomText : Option String) :
    (handleAIMemeGenerated env imageUrl aiTopText aiBottomText s).selectedImage = imageUrl ∧
    (∀ t, aiTopText = some t → t ≠ "" →
      (handleAIMemeGenerated env imageUrl aiTopText aiBottomText s).topText.content = t) ∧
    (aiTopText = none ∨ aiTopText = some "" →
      (handleAIMemeGenerated env imageUrl aiTopText aiBottomText s).topText = s.topText) ∧
    (∀ t, aiBottomText = some t → t ≠ "" →
      (handleAIMemeGenerated env imageUrl aiTopText aiBottomText s).bottomText.content = t) ∧
    (aiBottomText = none ∨ aiBottomText = some "" →
      (handleAIMemeGenerated env imageUrl aiTopText aiBottomText s).bottomText =
        s.bottomText) ∧
    ((handleAIMemeGenerated env imageUrl aiTopText aiBottomText s).topText.fontSize =
        s.topText.fontSize ∧
      (handleAIMemeGenerated env imageUrl aiTopText aiBottomText s).topText.color =
        s.topText.color ∧
      (handleAIMemeGenerated env imageUrl aiTopText aiBottomText s).topText.stroke =
        s.topText.stroke ∧
      (handleAIMemeGenerated env imageUrl aiTopText aiBottomText s).topText.strokeWidth =
        s.topText.strokeWidth ∧
      (handleAIMemeGenerated env imageUrl aiTopText aiBottomText s).topText.y =
        s.topText.y) ∧
    ((handleAIMemeGenerated env imageUrl aiTopText aiBottomText s).bottomText.fontSize =
        s.bottomText.fontSize ∧
      (handleAIMemeGenerated env imageUrl aiTopText aiBottomText s).bottomText.color =
        s.bottomText.color ∧
      (handleAIMemeGenerated env imageUrl aiTopText aiBottomText s).bottomText.stroke =
        s.bottomText.stroke ∧
      (handleAIMemeGenerated env imageUrl aiTopText aiBottomText s).bottomText.strokeWidth =
        s.bottomText.strokeWidth ∧
      (handleAIMemeGenerated env imageUrl aiTopText aiBottomText s).bottomText.y =
        s.bottomText.y) ∧
    (s.topText.valid →
      (handleAIMemeGenerated env imageUrl aiTopText aiBottomText s).topText.valid) ∧
    (s.bottomText.valid →
      (handleAIMemeGenerated env imageUrl aiTopText aiBottomText s).bottomText.valid) ∧
    initialTopText.valid ∧ initialBottomText.valid := by
  have hc := commit_frame env
    { selection := decide (imageUrl ≠ s.selectedImage),
      document := truthy aiTopText || truthy aiBottomText }
    (aiMemeUpdates imageUrl aiTopText aiBottomText s)
  have hsel : (handleAIMemeGenerated env imageUrl aiTopText aiBottomText s).selectedImage =
      imageUrl := hc.1.trans (aiMemeUpdates_selectedImage _ _ _ _)
  have htop : (handleAIMemeGenerated env imageUrl aiTopText aiBottomText s).topText =
      layerAfter aiTopText s.topText := hc.2.2.1.trans (aiMemeUpdates_topText _ _ _ _)
  have hbot : (handleAIMemeGenerated env imageUrl aiTopText aiBottomText s).bottomText =
      layerAfter aiBottomText s.bottomText := hc.2.2.2.1.trans (aiMemeUpdates_bottomText _ _ _ _)
  have hfields : ∀ (o : Option String) (l : TextLayer),
      (layerAfter o l).fontSize = l.fontSize ∧
      (layerAfter o l).color = l.color ∧
      (layerAfter o l).stroke = l.stroke ∧
      (layerAfter o l).strokeWidth = l.strokeWidth ∧
      (layerAfter o l).y = l.y := by
    intro o l
    cases o with
    | none => exact ⟨rfl, rfl, rfl, rfl, rfl⟩
    | some t =>
      by_cases ht : t = "" <;> simp [layerAfter, ht, withContent]
  have hset : ∀ (l : TextLayer) (t : String), t ≠ "" →
      (layerAfter (some t) l).content = t := by
    intro l t ht
    simp [layerAfter, ht, withContent]
  have hkeep : ∀ (o : Option String) (l : TextLayer), o = none ∨ o = some "" →
      (layerAfter o l) = l := by
    intro o l ho
    rcases ho with ho | ho <;> subst ho <;> simp [layerAfter]
  have hvalid : ∀ (o : Option String) (l : TextLayer), l.valid →
      (layerAfter o l).valid := by
    intro o l hl
    obtain ⟨f1, -, -, f4, f5⟩ := hfields o l
    unfold TextLayer.valid at hl ⊢
    rw [f1, f4, f5]
    exact hl
  refine ⟨hsel, ?_, ?_, ?_, ?_, ?_, ?_, ?_, ?_, ?_, ?_⟩
  · intro t ho ht
    rw [htop, ho]
    exact hset _ t ht
  · intro ho
    rw [htop]
    exact hkeep _ _ ho
  · intro t ho ht
    rw [hbot, ho]
    exact hset _ t ht
  · intro ho
    rw [hbot]
    exact hkeep _ _ ho
  · rw [htop]
    exact hfields _ _
  · rw [hbot]
    exact hfields _ _
  · intro hl
    rw [htop]
    exact hvalid _ _ hl
  · intro hl
    rw [hbot]
    exact hvalid _ _ hl
  · unfold TextLayer.valid initialTopText
    decide
  · unfold TextLayer.valid initialBottomText
    decide

theorem handleAIMemeGenerated_layers_witness :
    (handleAIMemeGenerated paintingEnv (some "a.png") (some "TOP") none
        initialState).selectedImage = some "a.png" ∧
    (handleAIMemeGenerated paintingEnv (some "a.png") (some "TOP") none
        initialState).topText.content = "TOP" ∧
    (handleAIMemeGenerated paintingEnv (some "a.png") (some "TOP") none
        initialState).bottomText = initialState.bottomText :=
  ⟨(handleAIMemeGenerated_layers paintingEnv initialState (some "a.png") (some "TOP") none).1,
    (handleAIMemeGenerated_layers paintingEnv initialState (some "a.png") (some "TOP")
      none).2.1 "TOP" rfl (by decide),
    (handleAIMemeGenerated_layers paintingEnv initialState (some "a.png") (some "TOP")
      none).2.2.2.2.1 (Or.inl rfl)⟩

end MemeGenerator
